import Mathlib

/-!
Shallow embedding of `vendor/github.com/essentialkaos/slack/rtm.go` (package
`slack`): the RTM session-negotiation entry points (`StartRTM`,
`StartRTMContext`, `ConnectRTM`, `ConnectRTMContext`) and the RTM manager
constructors (`NewRTM`, `NewRTMWithOptions`).

Types that `rtm.go` uses but that are declared in other files of the library
(`Client`, `Config`, `Info`, `infoResponseFull`, `RTMOptions`, `SafeID`, the
`post` helper, Go channels and Go `error` values) are modelled here, either
from how `rtm.go` uses them or from the specification, as noted on each
definition.
-/

namespace Slack

/-- Go durations are integer nanosecond counts; `time.Second` is 10^9 ns. -/
def timeSecond : Nat := 1000000000

/-- Constant `WEBSOCKET_DEFAULT_TIMEOUT = 10 * time.Second` (rtm.go line 12). -/
def WEBSOCKET_DEFAULT_TIMEOUT : Nat := 10 * timeSecond

/-- A Go `context.Context`, modelled by its deadline budget: `none` for
`context.Background()` (no deadline), `some d` after `context.WithTimeout`
with duration `d` nanoseconds. -/
structure Context where
  timeout : Option Nat
  deriving DecidableEq, Repr

/-- Go `context.Background()`: no deadline. -/
def Context.background : Context := { timeout := none }

/-- Go `context.WithTimeout(parent, d)`: the derived context carries deadline
budget `d` (the cancel function is a resource-release detail with no
observable value-level effect here). -/
def Context.withTimeout (_parent : Context) (d : Nat) : Context :=
  { timeout := some d }

/-- A Go `error` value. `str s` is a plain error whose `Error()` message is
`s` (as produced by `fmt.Errorf`); `webError c` is the structured
application error the server supplies in a negotiation response
(`response.Error`, a `*WebError` with code `c`). -/
inductive GoError where
  | str (msg : String)
  | webError (code : String)
  deriving DecidableEq, Repr

/-- Method `err.Error()`: the message of a Go error value. -/
def GoError.message : GoError → String
  | .str s => s
  | .webError c => c

/-- Modelled from the spec: the client `Config` ("parameterized by client
configuration"); its declaration is not under src/. Only its conversion to
request parameters is consumed by `rtm.go`. -/
structure Config where
  token : String
  deriving DecidableEq, Repr

/-- Modelled from the spec: `Config.toParams()` encodes the configuration as
request parameters for the request/response API call; its body is not under
src/. It is a pure function of the configuration. -/
def Config.toParams (c : Config) : List (String × String) :=
  [("token", c.token)]

/-- The `Client` receiver of the negotiation methods. `rtm.go` reads exactly
two of its fields: `Config` (line 32/66) and `debug` (line 32/66). -/
structure Client where
  Config : Config
  debug : Bool
  deriving DecidableEq, Repr

/-- Modelled from the spec: the Session Info block ("endpoint URL,
session/team/user identifiers"); its declaration is not under src/. `rtm.go`
only reads its `URL` field. -/
structure Info where
  URL : String
  teamID : String
  userID : String
  deriving DecidableEq, Repr

/-- The response struct `post` fills for both `rtm.start` and `rtm.connect`:
an `Ok` flag, a structured application `Error`, and the `Info` block, as
used by `rtm.go` lines 38-47 and 73-82 (declared outside src/). -/
structure InfoResponseFull where
  Ok : Bool
  Error : GoError
  Info : Info
  deriving DecidableEq, Repr

/-- The request/response API helper `post(ctx, path, params, response, debug)`
(declared outside src/), modelled as an oracle supplied by the environment:
given the context, endpoint path, parameters and debug flag, it either fails
with a Go error (network/transport failure) or fills the response struct. -/
def PostFn : Type :=
  Context → String → List (String × String) → Bool → Except GoError InfoResponseFull

/-- Method `StartRTMContext` (rtm.go lines 29-48): calls `post` on the
`"rtm.start"` endpoint; a `post` error is wrapped as `fmt.Errorf("post: %s",
err)`; a falsy `Ok` returns `response.Error` itself; on success returns the
`Info` block and its `URL` field. Result triple is (info, websocketURL, err)
with `none` playing Go `nil`. -/
def Client.StartRTMContext (api : Client) (post : PostFn) (ctx : Context) :
    Option Info × String × Option GoError :=
  match post ctx "rtm.start" api.Config.toParams api.debug with
  | .error err => (none, "", some (.str ("post: " ++ err.message)))
  | .ok response =>
    if !response.Ok then
      (none, "", some response.Error)
    else
      (some response.Info, response.Info.URL, none)

/-- Method `StartRTM` (rtm.go lines 18-24): derives a context from
`context.Background()` with `WEBSOCKET_DEFAULT_TIMEOUT` and delegates to
`StartRTMContext`. -/
def Client.StartRTM (api : Client) (post : PostFn) :
    Option Info × String × Option GoError :=
  let ctx := Context.withTimeout Context.background WEBSOCKET_DEFAULT_TIMEOUT
  api.StartRTMContext post ctx

/-- Method `ConnectRTMContext` (rtm.go lines 64-83): same shape as
`StartRTMContext` but on the `"rtm.connect"` endpoint (the extra `Debugf`
call on failure is log output only). -/
def Client.ConnectRTMContext (api : Client) (post : PostFn) (ctx : Context) :
    Option Info × String × Option GoError :=
  match post ctx "rtm.connect" api.Config.toParams api.debug with
  | .error err => (none, "", some (.str ("post: " ++ err.message)))
  | .ok response =>
    if !response.Ok then
      (none, "", some response.Error)
    else
      (some response.Info, response.Info.URL, none)

/-- Method `ConnectRTM` (rtm.go lines 53-59): derives a context from
`context.Background()` with `WEBSOCKET_DEFAULT_TIMEOUT` and delegates to
`ConnectRTMContext`. -/
def Client.ConnectRTM (api : Client) (post : PostFn) :
    Option Info × String × Option GoError :=
  let ctx := Context.withTimeout Context.background WEBSOCKET_DEFAULT_TIMEOUT
  api.ConnectRTMContext post ctx

/-- State-threaded embedding of `StartRTMContext`: the Go method has a
pointer receiver, so each statement is translated against an explicit
client state; the body of rtm.go lines 29-48 reads `api.Config` and
`api.debug` and contains no assignment to any field of `api`, so every
branch returns the entry state unchanged alongside the result triple. -/
def Client.StartRTMContextSt (api : Client) (post : PostFn) (ctx : Context) :
    Client × (Option Info × String × Option GoError) :=
  match post ctx "rtm.start" api.Config.toParams api.debug with
  | .error err => (api, (none, "", some (.str ("post: " ++ err.message))))
  | .ok response =>
    if !response.Ok then
      (api, (none, "", some response.Error))
    else
      (api, (some response.Info, response.Info.URL, none))

/-- State-threaded embedding of `ConnectRTMContext` (rtm.go lines 64-83),
analogous to `Client.StartRTMContextSt`: the body reads `api.Config` and
`api.debug` and assigns to no field of `api`. -/
def Client.ConnectRTMContextSt (api : Client) (post : PostFn) (ctx : Context) :
    Client × (Option Info × String × Option GoError) :=
  match post ctx "rtm.connect" api.Config.toParams api.debug with
  | .error err => (api, (none, "", some (.str ("post: " ++ err.message))))
  | .ok response =>
    if !response.Ok then
      (api, (none, "", some response.Error))
    else
      (api, (some response.Info, response.Info.URL, none))

/-- A Go channel of element type `α`, modelled by the observable state a
freshly made channel has: its buffer capacity (`make(chan T, n)` has
capacity `n`, `make(chan T)` has capacity 0) and its buffered contents. -/
structure Chan (α : Type) where
  capacity : Nat
  buffer : List α
  deriving DecidableEq, Repr

/-- Go `make(chan T, n)` / `make(chan T)`: a fresh, empty channel of the given
capacity. -/
def Chan.make (α : Type) (capacity : Nat) : Chan α :=
  { capacity := capacity, buffer := [] }

/-- An event published on the consumer-facing stream (declared outside
src/); its payload is opaque to the code modelled here. -/
structure RTMEvent where
  tag : String
  deriving DecidableEq, Repr

/-- An outbound message queued by callers (declared outside src/); opaque
here. -/
structure OutgoingMessage where
  text : String
  deriving DecidableEq, Repr

/-- A raw inbound frame (`json.RawMessage`): opaque bytes before
classification. -/
structure RawMessage where
  bytes : String
  deriving DecidableEq, Repr

/-- Modelled from the spec: the Identifier Generator (`SafeID`, declared
outside src/) — "`next() → integer`, strictly increasing, starts at a
configurable seed (default 1)". The state is the next identifier to hand
out. -/
structure SafeID where
  nextID : Int
  deriving DecidableEq, Repr

/-- Modelled from the spec: `NewSafeID(seed)` constructs a generator whose
first identifier is the seed. -/
def NewSafeID (seed : Int) : SafeID :=
  { nextID := seed }

/-- Modelled from the spec: `next()` yields the current identifier and
advances the generator, so successive identifiers are strictly
increasing. -/
def SafeID.next (g : SafeID) : Int × SafeID :=
  (g.nextID, { nextID := g.nextID + 1 })

/-- The identifier the generator yields on its `n`-th call (0-based),
obtained by iterating `SafeID.next`. -/
def SafeID.nthID (g : SafeID) : Nat → Int
  | 0 => (g.next).1
  | n + 1 => ((g.next).2).nthID n

/-- Struct `RTMOptions` (declared outside src/): `rtm.go` line 110 reads exactly
its `UseRTMStart` field, the negotiation-mode selector of the spec. -/
structure RTMOptions where
  UseRTMStart : Bool
  deriving DecidableEq, Repr

/-- The RTM manager struct, with the fields `NewRTMWithOptions` initializes
(rtm.go lines 95-111). The mutex is a pure lock token here. Go zero value
gives `useRTMStart := false` when the composite literal omits it. -/
structure RTM where
  Client : Client
  IncomingEvents : Chan RTMEvent
  outgoingMessages : Chan OutgoingMessage
  pings : List (Int × Nat)
  isConnected : Bool
  wasIntentional : Bool
  killChannel : Chan Bool
  disconnected : Chan Unit
  forcePing : Chan Bool
  rawEvents : Chan RawMessage
  idGen : SafeID
  useRTMStart : Bool
  deriving DecidableEq, Repr

/-- Method `NewRTMWithOptions` (rtm.go lines 94-115): builds the manager with the
literal field values of lines 95-108 (empty ping map, not connected,
`wasIntentional` true, channel capacities 50/20/0/0/0/0, id generator seeded
with 1), then sets `useRTMStart` iff `options != nil && options.UseRTMStart`. -/
def Client.NewRTMWithOptions (api : Client) (options : Option RTMOptions) : RTM :=
  let result : RTM :=
    { Client := api
      IncomingEvents := Chan.make RTMEvent 50
      outgoingMessages := Chan.make OutgoingMessage 20
      pings := []
      isConnected := false
      wasIntentional := true
      killChannel := Chan.make Bool 0
      disconnected := Chan.make Unit 0
      forcePing := Chan.make Bool 0
      rawEvents := Chan.make RawMessage 0
      idGen := NewSafeID 1
      useRTMStart := false }
  match options with
  | some opts => if opts.UseRTMStart then { result with useRTMStart := true } else result
  | none => result

/-- Method `NewRTM` (rtm.go lines 87-89): delegates to `NewRTMWithOptions(nil)`. -/
def Client.NewRTM (api : Client) : RTM :=
  api.NewRTMWithOptions none

/-! Concrete sample values used by the witness theorems. -/

/-- A sample Info block. -/
def sampleInfo : Info :=
  { URL := "wss://ms9.slack-msgs.com/websocket/abc", teamID := "T024", userID := "U023" }

/-- A sample client. -/
def sampleClient : Client :=
  { Config := { token := "xoxb-test" }, debug := false }

/-- A post oracle whose response has a falsy Ok flag carrying an application
error, on every endpoint. -/
def rejectPost : PostFn := fun _ _ _ _ =>
  .ok { Ok := false, Error := .webError "invalid_auth", Info := sampleInfo }

/-- A post oracle that succeeds with a truthy Ok flag on every endpoint. -/
def okPost : PostFn := fun _ _ _ _ =>
  .ok { Ok := true, Error := .str "", Info := sampleInfo }

/-- A post oracle that fails with a transport error on every endpoint. -/
def failPost : PostFn := fun _ _ _ _ =>
  .error (.str "dial tcp: connection refused")

/-- Helper: the identifier the generator yields on its n-th call is the seed
state plus n. -/
theorem SafeID.nthID_eq (g : SafeID) : ∀ n : Nat, g.nthID n = g.nextID + n
  | 0 => by simp [SafeID.nthID, SafeID.next]
  | n + 1 => by
    have h := SafeID.nthID_eq { nextID := g.nextID + 1 } n
    simp [SafeID.nthID, SafeID.next] at h ⊢
    omega

end Slack

namespace Slack

/-- C1: for every negotiation response whose Ok flag is false, both
StartRTMContext and ConnectRTMContext return the server-supplied
application error value itself (not wrapped into a transport error),
together with a nil Info and an empty websocket URL. -/
theorem rtm_ok_false_returns_app_error_verbatim
    (api : Client) (post : PostFn) (ctx : Context) (rs rc : InfoResponseFull)
    (hs : post ctx "rtm.start" api.Config.toParams api.debug = .ok rs)
    (hsOk : rs.Ok = false)
    (hc : post ctx "rtm.connect" api.Config.toParams api.debug = .ok rc)
    (hcOk : rc.Ok = false) :
    api.StartRTMContext post ctx = (none, "", some rs.Error) ∧
    api.ConnectRTMContext post ctx = (none, "", some rc.Error) := by
  unfold Client.StartRTMContext Client.ConnectRTMContext
  rw [hs, hc]
  simp [hsOk, hcOk]

/-- Witness for C1 at a concrete rejecting oracle. -/
theorem rtm_ok_false_returns_app_error_verbatim_witness :
    sampleClient.StartRTMContext rejectPost Context.background =
      (none, "", some (GoError.webError "invalid_auth")) ∧
    sampleClient.ConnectRTMContext rejectPost Context.background =
      (none, "", some (GoError.webError "invalid_auth")) :=
  rtm_ok_false_returns_app_error_verbatim sampleClient rejectPost Context.background
    { Ok := false, Error := .webError "invalid_auth", Info := sampleInfo }
    { Ok := false, Error := .webError "invalid_auth", Info := sampleInfo }
    rfl rfl rfl rfl

/-- C2: StartRTM and ConnectRTM run the negotiation on a context derived
from the background context with timeout exactly WEBSOCKET_DEFAULT_TIMEOUT,
which is 10 seconds, and otherwise delegate to their context-taking
variants unchanged. -/
theorem rtm_no_context_uses_default_timeout (api : Client) (post : PostFn) :
    api.StartRTM post =
      api.StartRTMContext post (Context.withTimeout Context.background WEBSOCKET_DEFAULT_TIMEOUT) ∧
    api.ConnectRTM post =
      api.ConnectRTMContext post (Context.withTimeout Context.background WEBSOCKET_DEFAULT_TIMEOUT) ∧
    (Context.withTimeout Context.background WEBSOCKET_DEFAULT_TIMEOUT).timeout =
      some (10 * timeSecond) :=
  ⟨rfl, rfl, rfl⟩

/-- C3: on every successful negotiation (truthy Ok), StartRTMContext
(endpoint "rtm.start") and ConnectRTMContext (endpoint "rtm.connect")
return a non-nil Info together with a websocket URL that is exactly the URL
field of that Info, unrewritten. -/
theorem rtm_success_returns_info_and_its_url
    (api : Client) (post : PostFn) (ctx : Context) (rs rc : InfoResponseFull)
    (hs : post ctx "rtm.start" api.Config.toParams api.debug = .ok rs)
    (hsOk : rs.Ok = true)
    (hc : post ctx "rtm.connect" api.Config.toParams api.debug = .ok rc)
    (hcOk : rc.Ok = true) :
    api.StartRTMContext post ctx = (some rs.Info, rs.Info.URL, none) ∧
    api.ConnectRTMContext post ctx = (some rc.Info, rc.Info.URL, none) := by
  unfold Client.StartRTMContext Client.ConnectRTMContext
  rw [hs, hc]
  simp [hsOk, hcOk]

/-- Witness for C3 at a concrete succeeding oracle. -/
theorem rtm_success_returns_info_and_its_url_witness :
    sampleClient.StartRTMContext okPost Context.background =
      (some sampleInfo, "wss://ms9.slack-msgs.com/websocket/abc", none) ∧
    sampleClient.ConnectRTMContext okPost Context.background =
      (some sampleInfo, "wss://ms9.slack-msgs.com/websocket/abc", none) :=
  rtm_success_returns_info_and_its_url sampleClient okPost Context.background
    { Ok := true, Error := .str "", Info := sampleInfo }
    { Ok := true, Error := .str "", Info := sampleInfo }
    rfl rfl rfl rfl

/-- C4: for every failure of the underlying post call, StartRTMContext and
ConnectRTMContext return nil Info, an empty websocket URL, and a non-nil
error wrapping the underlying failure with the "post: " prefix. -/
theorem rtm_post_failure_wrapped
    (api : Client) (post : PostFn) (ctx : Context) (es ec : GoError)
    (hs : post ctx "rtm.start" api.Config.toParams api.debug = .error es)
    (hc : post ctx "rtm.connect" api.Config.toParams api.debug = .error ec) :
    api.StartRTMContext post ctx =
      (none, "", some (GoError.str ("post: " ++ es.message))) ∧
    api.ConnectRTMContext post ctx =
      (none, "", some (GoError.str ("post: " ++ ec.message))) := by
  unfold Client.StartRTMContext Client.ConnectRTMContext
  rw [hs, hc]
  exact ⟨rfl, rfl⟩

/-- Witness for C4 at a concrete failing oracle. -/
theorem rtm_post_failure_wrapped_witness :
    sampleClient.StartRTMContext failPost Context.background =
      (none, "", some (GoError.str ("post: " ++ "dial tcp: connection refused"))) ∧
    sampleClient.ConnectRTMContext failPost Context.background =
      (none, "", some (GoError.str ("post: " ++ "dial tcp: connection refused"))) :=
  rtm_post_failure_wrapped sampleClient failPost Context.background
    (.str "dial tcp: connection refused") (.str "dial tcp: connection refused")
    rfl rfl

/-- C5: every manager produced by NewRTM or NewRTMWithOptions starts not
connected, with wasIntentional true and an empty outstanding-ping map. -/
theorem rtm_constructor_initial_state (api : Client) (options : Option RTMOptions) :
    (api.NewRTM).isConnected = false ∧
    (api.NewRTM).wasIntentional = true ∧
    (api.NewRTM).pings = [] ∧
    (api.NewRTMWithOptions options).isConnected = false ∧
    (api.NewRTMWithOptions options).wasIntentional = true ∧
    (api.NewRTMWithOptions options).pings = [] := by
  unfold Client.NewRTM Client.NewRTMWithOptions
  rcases options with _ | opts
  · simp
  · cases h : opts.UseRTMStart <;> simp [h]

/-- C6: every manager produced by NewRTM or NewRTMWithOptions has an
incoming-event stream of capacity exactly 50 and an outbound message queue
of capacity exactly 20. -/
theorem rtm_constructor_queue_capacities (api : Client) (options : Option RTMOptions) :
    (api.NewRTM).IncomingEvents.capacity = 50 ∧
    (api.NewRTM).outgoingMessages.capacity = 20 ∧
    (api.NewRTMWithOptions options).IncomingEvents.capacity = 50 ∧
    (api.NewRTMWithOptions options).outgoingMessages.capacity = 20 := by
  unfold Client.NewRTM Client.NewRTMWithOptions
  rcases options with _ | opts
  · simp [Chan.make]
  · cases h : opts.UseRTMStart <;> simp [h, Chan.make]

/-- C7: NewRTMWithOptions sets useRTMStart to true exactly when a non-nil
options value with a true UseRTMStart field is passed; a nil options value
or a false field leaves the compact-negotiation default. -/
theorem rtm_useRTMStart_iff_option (api : Client) (options : Option RTMOptions) :
    (api.NewRTMWithOptions options).useRTMStart = true ↔
      ∃ opts : RTMOptions, options = some opts ∧ opts.UseRTMStart = true := by
  unfold Client.NewRTMWithOptions
  rcases options with _ | opts
  · simp
  · cases h : opts.UseRTMStart <;> simp [h]

/-- C8: every manager produced by NewRTM or NewRTMWithOptions carries an
identifier generator seeded with 1, whose first identifier is 1 and whose
successive identifiers are strictly increasing. -/
theorem rtm_idGen_seeded_one (api : Client) (options : Option RTMOptions) (n : Nat) :
    (api.NewRTM).idGen = NewSafeID 1 ∧
    (api.NewRTMWithOptions options).idGen = NewSafeID 1 ∧
    (api.NewRTM).idGen.nthID 0 = 1 ∧
    (api.NewRTM).idGen.nthID n < (api.NewRTM).idGen.nthID (n + 1) := by
  have hgen : ∀ opts : Option RTMOptions, (api.NewRTMWithOptions opts).idGen = NewSafeID 1 := by
    intro opts
    unfold Client.NewRTMWithOptions
    rcases opts with _ | o
    · simp
    · cases h : o.UseRTMStart <;> simp [h]
  refine ⟨hgen none, hgen options, ?_, ?_⟩
  · rw [Client.NewRTM, hgen none]
    simp [SafeID.nthID_eq, NewSafeID]
  · rw [Client.NewRTM, hgen none]
    simp [SafeID.nthID_eq, NewSafeID]

/-- Helper: the state-threaded StartRTMContext agrees with the pure one and
passes the client through. -/
theorem Client.startRTMContextSt_eq (api : Client) (post : PostFn) (ctx : Context) :
    api.StartRTMContextSt post ctx = (api, api.StartRTMContext post ctx) := by
  unfold Client.StartRTMContextSt Client.StartRTMContext
  rcases hp : post ctx "rtm.start" api.Config.toParams api.debug with e | r
  · rfl
  · cases h : r.Ok <;> simp [h]

/-- Helper: the state-threaded ConnectRTMContext agrees with the pure one and
passes the client through. -/
theorem Client.connectRTMContextSt_eq (api : Client) (post : PostFn) (ctx : Context) :
    api.ConnectRTMContextSt post ctx = (api, api.ConnectRTMContext post ctx) := by
  unfold Client.ConnectRTMContextSt Client.ConnectRTMContext
  rcases hp : post ctx "rtm.connect" api.Config.toParams api.debug with e | r
  · rfl
  · cases h : r.Ok <;> simp [h]

/-- C9: the state-threaded negotiation calls return the client state they
received, unchanged, in every branch, while computing the same result
triple as the pure embeddings: negotiation mutates no client or manager
state. -/
theorem rtm_negotiation_frame (api : Client) (post : PostFn) (ctx : Context) :
    (api.StartRTMContextSt post ctx).1 = api ∧
    (api.StartRTMContextSt post ctx).2 = api.StartRTMContext post ctx ∧
    (api.ConnectRTMContextSt post ctx).1 = api ∧
    (api.ConnectRTMContextSt post ctx).2 = api.ConnectRTMContext post ctx := by
  rw [Client.startRTMContextSt_eq api post ctx, Client.connectRTMContextSt_eq api post ctx]
  exact ⟨rfl, rfl, rfl, rfl⟩

/-- C10: NewRTM produces exactly the manager NewRTMWithOptions produces for
a nil options value. -/
theorem rtm_newRTM_eq_withOptions_nil (api : Client) :
    api.NewRTM = api.NewRTMWithOptions none := rfl

end Slack
